import Mathlib

/-!
Shallow embedding of the productivity-api backend (src/db.js): an Express +
PostgreSQL task tracker.  We model the authentication middleware
(`authenticateToken`), the POST /login handler, the task CRUD handlers
(POST/GET/PUT/DELETE /tasks) including the dynamically assembled filter query
of GET /tasks, and the GET /dashboard/stats aggregation.

Modelling conventions:
* SQL rows become Lean structures; nullable columns are `Option` fields.
* The PostgreSQL datastore is modelled by executing the handlers' WHERE
  clauses as Lean predicates over a `List Task` table, with SQL NULL
  three-valued logic collapsed to `false` where a NULL comparison makes a
  row fail the predicate (`priority = 'High'` on NULL, `description ILIKE`
  on NULL, `deadline < NOW()` on NULL).
* `ILIKE` is modelled by a pattern matcher `likeMatch` implementing SQL
  LIKE semantics (`%` = any sequence, `_` = any character), applied to
  lowercased text, exactly as the handler passes the pattern `%search%`.
* JavaScript truthiness of the optional query/body values is modelled
  explicitly: `undefined` is `none`, and the empty string (falsy in JS) is
  `some ""`.
* `jwt.verify` and `bcrypt.compare` are external collaborators with a fixed
  secret; they are universally quantified parameters
  (`verify : String → Option Nat` returning the decoded `user_id` payload,
  `compare : String → String → Bool`).
-/

namespace ProductivityApi

/-- A row of the `tasks` table as used by the query code of src/db.js
(`task_id`, `user_id`, `title`, `description`, `priority`, `status`,
`deadline`, timestamps).  `status` has the server-side default `'Pending'`
and is non-null; `description`, `priority` and `deadline` are nullable.
Timestamps are integers (epoch instants). -/
structure Task where
  task_id : Nat
  user_id : Nat
  title : String
  description : Option String
  priority : Option String
  status : String
  deadline : Option Int
  created_at : Int
  updated_at : Int
deriving DecidableEq

/-- A row of the `users` table (`user_id`, `name`, `email`, `password`
holding the bcrypt hash). -/
structure User where
  user_id : Nat
  name : String
  email : String
  password : String
deriving DecidableEq

/-! ### Credential Gate (the `authenticateToken` middleware) -/

/-- JavaScript `str.split(c)` on a single-character separator: splits at every
occurrence of `c`, keeping empty fragments. -/
def splitOnChar (c : Char) : List Char → List (List Char)
  | [] => [[]]
  | x :: xs =>
    if x = c then [] :: splitOnChar c xs
    else
      match splitOnChar c xs with
      | [] => [[x]]
      | y :: ys => (x :: y) :: ys

/-- Second space-separated fragment of a present header, `none` when there
is no second fragment or it is empty (the empty string is falsy in JS). -/
def tokenFrom (h : List Char) : Option String :=
  match (splitOnChar ' ' h)[1]? with
  | none => none
  | some t => if t = [] then none else some (String.mk t)

/-- Token extraction of the middleware:
`const token = authHeader && authHeader.split(' ')[1]` followed by the
falsiness test `if (!token)`.  Returns `none` exactly when the JS `token`
is falsy: the header is absent, the header has no second space-separated
fragment, or that fragment is the empty string. -/
def bearerToken (authHeader : Option String) : Option String :=
  match authHeader with
  | none => none
  | some h => tokenFrom h.toList

/-- Outcome of the `authenticateToken` middleware. -/
inductive GateResult where
  /-- `res.sendStatus(401)`: no (truthy) token extracted. -/
  | unauthenticated
  /-- `res.sendStatus(403)`: `jwt.verify` reported an error. -/
  | forbidden
  /-- `next()` with `req.user` carrying the decoded `user_id`. -/
  | authenticated (user_id : Nat)
deriving DecidableEq

/-- The middleware itself: extract the token, 401 if falsy, then
`jwt.verify` (modelled by `verify`), 403 on error, otherwise attach the
decoded user id. -/
def authenticateToken (verify : String → Option Nat) (authHeader : Option String) :
    GateResult :=
  match bearerToken authHeader with
  | none => .unauthenticated
  | some token =>
    match verify token with
    | none => .forbidden
    | some uid => .authenticated uid

/-! ### GET /tasks: the dynamic filter query -/

/-- JavaScript truthiness of an optional string (`undefined` and `""` are
falsy), as used by `if (status)`, `if (priority)`, `if (search)`. -/
def truthy : Option String → Bool
  | none => false
  | some s => !(s == "")

/-- Does `f` accept some suffix of the text (including the text itself and
the empty suffix)?  Used to give `%` its "match any sequence" reading. -/
def anySuffix (f : List Char → Bool) : List Char → Bool
  | [] => f []
  | c :: cs => f (c :: cs) || anySuffix f cs

/-- SQL LIKE pattern matching over character lists: `%` matches any
(possibly empty) sequence, `_` matches exactly one character, any other
pattern character matches itself. -/
def likeMatch : List Char → List Char → Bool
  | [], t => t.isEmpty
  | p :: ps, t =>
    if p = '%' then anySuffix (likeMatch ps) t
    else
      match t with
      | [] => false
      | c :: cs => (p = '_' || p = c) && likeMatch ps cs

/-- Lowercased character list of a string (ILIKE compares case-insensitively). -/
def lowerList (s : String) : List Char :=
  s.toList.map Char.toLower

/-- PostgreSQL `text ILIKE pat`: case-insensitive LIKE. -/
def sqlILike (text pat : String) : Bool :=
  likeMatch (lowerList pat) (lowerList text)

/-- The pattern `%${search}%` built by the handler. -/
def searchPat (search : String) : String :=
  "%" ++ search ++ "%"

/-- The WHERE clause assembled by the GET /tasks handler, as a row predicate:
`user_id = $1`, then `AND status = $n` / `AND priority = $n` for each truthy
filter, then `AND (title ILIKE $n OR description ILIKE $n)` for a truthy
search.  NULL `priority`/`description` fail their comparisons. -/
def matchesFilters (uid : Nat) (status priority search : Option String)
    (t : Task) : Bool :=
  (t.user_id == uid)
  && (if truthy status then t.status == status.getD "" else true)
  && (if truthy priority then
        (match t.priority with
         | some p => p == priority.getD ""
         | none => false)
      else true)
  && (if truthy search then
        (sqlILike t.title (searchPat (search.getD ""))
         || (match t.description with
             | some d => sqlILike d (searchPat (search.getD ""))
             | none => false))
      else true)

/-- Executing the assembled GET /tasks query against the table. -/
def listTasks (uid : Nat) (status priority search : Option String)
    (tasks : List Task) : List Task :=
  tasks.filter (matchesFilters uid status priority search)

/-- A positional query parameter (the handler binds the numeric user id and
string filter values). -/
inductive SqlParam where
  | nat (n : Nat)
  | str (s : String)
deriving DecidableEq

/-- Literal translation of the query-text/parameter assembly of the GET
/tasks handler: starts from `SELECT * FROM tasks WHERE user_id = $1` with
parameter list `[$1 = uid]`, and for each truthy filter appends a predicate
with the next positional placeholder and pushes the value (for `search`,
the value `%search%`). -/
def buildTasksQuery (uid : Nat) (status priority search : Option String) :
    String × List SqlParam :=
  let qt0 := "SELECT * FROM tasks WHERE user_id = $1"
  let qp0 : List SqlParam := [SqlParam.nat uid]
  let n0 : Nat := 1
  let s1 :=
    if truthy status then
      (qt0 ++ " AND status = $" ++ toString (n0 + 1),
       qp0 ++ [SqlParam.str (status.getD "")], n0 + 1)
    else (qt0, qp0, n0)
  let s2 :=
    if truthy priority then
      (s1.1 ++ " AND priority = $" ++ toString (s1.2.2 + 1),
       s1.2.1 ++ [SqlParam.str (priority.getD "")], s1.2.2 + 1)
    else s1
  let s3 :=
    if truthy search then
      (s2.1 ++ " AND (title ILIKE $" ++ toString (s2.2.2 + 1)
            ++ " OR description ILIKE $" ++ toString (s2.2.2 + 1) ++ ")",
       s2.2.1 ++ [SqlParam.str (searchPat (search.getD ""))], s2.2.2 + 1)
    else s2
  (s3.1, s3.2.1)

/-! ### POST /tasks -/

/-- Body of a POST /tasks request (`title`, `description`, `priority`,
`deadline`); missing fields are `none` and insert SQL NULL. -/
structure CreateReq where
  title : String
  description : Option String
  priority : Option String
  deadline : Option Int
deriving DecidableEq

/-- The INSERT of the POST /tasks handler: a fresh row owned by the acting
principal, with the server-side defaults `status = 'Pending'` and
current-timestamp `created_at`/`updated_at`; returns the inserted row
(`RETURNING *`) and the new table. -/
def createTask (uid : Nat) (r : CreateReq) (newId : Nat) (now : Int)
    (tasks : List Task) : Task × List Task :=
  let t : Task :=
    { task_id := newId, user_id := uid, title := r.title,
      description := r.description, priority := r.priority,
      status := "Pending", deadline := r.deadline,
      created_at := now, updated_at := now }
  (t, tasks ++ [t])

/-! ### PUT /tasks/:id and DELETE /tasks/:id -/

/-- Body of a PUT /tasks/:id request; every field is optional and a missing
field is SQL NULL in the corresponding `COALESCE($i, column)`. -/
structure UpdateReq where
  title : Option String
  description : Option String
  priority : Option String
  status : Option String
  deadline : Option Int
deriving DecidableEq

/-- The SET clause of the UPDATE: `COALESCE($i, column)` for each of the
five fields (for nullable columns, a NULL argument keeps the old — possibly
NULL — value), and `updated_at = CURRENT_TIMESTAMP`. -/
def applyUpdate (r : UpdateReq) (now : Int) (t : Task) : Task :=
  { t with
    title := r.title.getD t.title,
    description := (match r.description with
                    | some d => some d
                    | none => t.description),
    priority := (match r.priority with
                 | some p => some p
                 | none => t.priority),
    status := r.status.getD t.status,
    deadline := (match r.deadline with
                 | some d => some d
                 | none => t.deadline),
    updated_at := now }

/-- Rows hit by the compound `WHERE task_id = $6 AND user_id = $7`. -/
def rowHit (uid taskId : Nat) (t : Task) : Bool :=
  t.task_id == taskId && t.user_id == uid

/-- The PUT /tasks/:id handler after authentication: run the UPDATE (every
row matching the compound WHERE gets the SET clause applied), and answer 404
with body `Task not found` when `RETURNING *` yields no row, else 200 with
the updated row.  Result: (HTTP status, returned row, new table). -/
def updateHandler (uid taskId : Nat) (r : UpdateReq) (now : Int)
    (tasks : List Task) : Nat × Option Task × List Task :=
  let returned := (tasks.filter (rowHit uid taskId)).map (applyUpdate r now)
  let tasks' := tasks.map fun t => if rowHit uid taskId t then applyUpdate r now t else t
  match returned with
  | [] => (404, none, tasks')
  | u :: _ => (200, some u, tasks')

/-- The DELETE /tasks/:id handler after authentication: run the DELETE with
the compound `WHERE task_id = $1 AND user_id = $2`, answer 404 when
`RETURNING *` yields no row, else 200.  Result: (HTTP status, new table). -/
def deleteHandler (uid taskId : Nat) (tasks : List Task) : Nat × List Task :=
  let returned := tasks.filter (rowHit uid taskId)
  let tasks' := tasks.filter fun t => !(rowHit uid taskId t)
  if returned.isEmpty then (404, tasks') else (200, tasks')

/-! ### GET /dashboard/stats -/

/-- The response object of GET /dashboard/stats. -/
structure DashboardStats where
  totalTasks : Nat
  completedTasks : Nat
  pendingTasks : Nat
  highPriorityTasks : Nat
  overdueTasks : Nat
deriving DecidableEq

/-- The five COUNT(*) queries of the stats handler, each scoped to
`user_id = $1`: all rows; `status = 'Completed'`; `status = 'Pending'`;
`priority = 'High'` (NULL priority never matches); and overdue rows
(`status != 'Completed' AND deadline < NOW()`, NULL deadline never
matches). -/
def dashboardStats (uid : Nat) (now : Int) (tasks : List Task) :
    DashboardStats :=
  { totalTasks := tasks.countP fun t => t.user_id == uid
    completedTasks := tasks.countP fun t =>
      t.user_id == uid && t.status == "Completed"
    pendingTasks := tasks.countP fun t =>
      t.user_id == uid && t.status == "Pending"
    highPriorityTasks := tasks.countP fun t =>
      t.user_id == uid && (match t.priority with
                           | some p => p == "High"
                           | none => false)
    overdueTasks := tasks.countP fun t =>
      t.user_id == uid && !(t.status == "Completed")
        && (match t.deadline with
            | some d => decide (d < now)
            | none => false) }

/-! ### POST /login -/

/-- The JWT payload produced by
`jwt.sign({ user_id: user.user_id }, secret, { expiresIn: '1h' })`:
the user id claim plus issued-at and expiry instants. -/
structure TokenPayload where
  user_id : Nat
  iat : Int
  exp : Int
deriving DecidableEq

/-- Outcome of the POST /login handler. -/
inductive LoginResult where
  /-- 400 `User not found`: no row matched `email = $1`. -/
  | userNotFound
  /-- 401 `Invalid password`: `bcrypt.compare` returned false. -/
  | invalidPassword
  /-- 200 with a signed token. -/
  | ok (token : TokenPayload)
deriving DecidableEq

/-- The POST /login handler: `SELECT * FROM users WHERE email = $1`;
no row → 400; `bcrypt.compare(password, rows[0].password)` false → 401;
otherwise sign a token for `rows[0].user_id` expiring one hour
(3600 seconds) after issuance. -/
def loginHandler (compare : String → String → Bool) (users : List User)
    (email password : String) (now : Int) : LoginResult :=
  match users.filter (fun u => u.email == email) with
  | [] => .userNotFound
  | u :: _ =>
    if compare password u.password then
      .ok { user_id := u.user_id, iat := now, exp := now + 3600 }
    else .invalidPassword

/-- HTTP status of a login outcome. -/
def loginStatus : LoginResult → Nat
  | .userNotFound => 400
  | .invalidPassword => 401
  | .ok _ => 200

/-! ### Protected routes: middleware composed with handlers -/

/-- Outcome of a protected route: the middleware's early responses, or the
handler's result computed for the authenticated principal. -/
inductive RouteOut (α : Type) where
  | unauthenticated
  | forbidden
  | ok (result : α)
deriving DecidableEq

/-- `app.METHOD(path, authenticateToken, handler)`: the gate runs first and
a rejection answers the request before any handler logic; on success the
handler runs with the decoded principal. -/
def runProtected {α : Type} (verify : String → Option Nat)
    (authHeader : Option String) (handler : Nat → α) : RouteOut α :=
  match authenticateToken verify authHeader with
  | .unauthenticated => .unauthenticated
  | .forbidden => .forbidden
  | .authenticated uid => .ok (handler uid)

/-- The protected POST /tasks route. -/
def postTasksRoute (verify : String → Option Nat) (authHeader : Option String)
    (r : CreateReq) (newId : Nat) (now : Int) (tasks : List Task) :
    RouteOut (Task × List Task) :=
  runProtected verify authHeader fun uid => createTask uid r newId now tasks

/-- The protected GET /tasks route. -/
def getTasksRoute (verify : String → Option Nat) (authHeader : Option String)
    (status priority search : Option String) (tasks : List Task) :
    RouteOut (List Task) :=
  runProtected verify authHeader fun uid =>
    listTasks uid status priority search tasks

/-- The protected PUT /tasks/:id route. -/
def putTaskRoute (verify : String → Option Nat) (authHeader : Option String)
    (taskId : Nat) (r : UpdateReq) (now : Int) (tasks : List Task) :
    RouteOut (Nat × Option Task × List Task) :=
  runProtected verify authHeader fun uid =>
    updateHandler uid taskId r now tasks

/-- The protected DELETE /tasks/:id route. -/
def deleteTaskRoute (verify : String → Option Nat) (authHeader : Option String)
    (taskId : Nat) (tasks : List Task) : RouteOut (Nat × List Task) :=
  runProtected verify authHeader fun uid => deleteHandler uid taskId tasks

/-- The protected GET /dashboard/stats route. -/
def statsRoute (verify : String → Option Nat) (authHeader : Option String)
    (now : Int) (tasks : List Task) : RouteOut DashboardStats :=
  runProtected verify authHeader fun uid => dashboardStats uid now tasks

/-- A search string is plain text for LIKE purposes: after lowercasing it
contains no `%`, `_` or backslash, so the pattern `%search%` means exactly
case-insensitive substring. -/
def plainText (s : String) : Bool :=
  s.toList.all fun c =>
    !(c.toLower == '%') && !(c.toLower == '_') && !(c.toLower == '\\')

/-! ### Lemmas about the middleware's header splitting -/

theorem splitOnChar_of_not_mem {c : Char} {l : List Char} (h : c ∉ l) :
    splitOnChar c l = [l] := by
  induction l with
  | nil => rfl
  | cons x xs ih =>
    simp only [List.mem_cons, not_or] at h
    unfold splitOnChar
    rw [if_neg (fun e => h.1 e.symm), ih h.2]

theorem splitOnChar_append {c : Char} {x : List Char} (t : List Char)
    (hx : c ∉ x) : splitOnChar c (x ++ c :: t) = x :: splitOnChar c t := by
  induction x with
  | nil =>
    simp [splitOnChar]
  | cons a x' ih =>
    simp only [List.mem_cons, not_or] at hx
    have hac : ¬a = c := fun e => hx.1 e.symm
    simp only [List.cons_append, splitOnChar, if_neg hac, List.append_eq,
      ih hx.2]

theorem tokenFrom_scheme {x t : List Char} (hx : ' ' ∉ x) (ht : ' ' ∉ t)
    (hne : t ≠ []) : tokenFrom (x ++ ' ' :: t) = some (String.mk t) := by
  unfold tokenFrom
  rw [splitOnChar_append t hx, splitOnChar_of_not_mem ht]
  simp [hne]

theorem tokenFrom_of_no_space {h : List Char} (hh : ' ' ∉ h) :
    tokenFrom h = none := by
  unfold tokenFrom
  rw [splitOnChar_of_not_mem hh]
  rfl

theorem bearerToken_scheme {x t : List Char} (hx : ' ' ∉ x) (ht : ' ' ∉ t)
    (hne : t ≠ []) :
    bearerToken (some (String.mk (x ++ ' ' :: t))) = some (String.mk t) :=
  tokenFrom_scheme hx ht hne

theorem bearerToken_of_no_space {h : List Char} (hh : ' ' ∉ h) :
    bearerToken (some (String.mk h)) = none :=
  tokenFrom_of_no_space hh

/-! ### Claim theorems -/

/-- C1: on every protected route (POST /tasks, GET /tasks, PUT /tasks/:id,
DELETE /tasks/:id, GET /dashboard/stats), a request without a bearer token
is answered 401 before any handler logic runs; a present but invalid token
is answered 403; a valid token makes the handler run with the decoded user
identifier as the acting principal, with no other side effects. -/
theorem gate_protects_routes (verify : String → Option Nat)
    (authHeader : Option String) (r : CreateReq) (newId : Nat) (now : Int)
    (status priority search : Option String) (taskId : Nat) (ur : UpdateReq)
    (tasks : List Task) :
    (bearerToken authHeader = none →
      postTasksRoute verify authHeader r newId now tasks = .unauthenticated ∧
      getTasksRoute verify authHeader status priority search tasks
        = .unauthenticated ∧
      putTaskRoute verify authHeader taskId ur now tasks = .unauthenticated ∧
      deleteTaskRoute verify authHeader taskId tasks = .unauthenticated ∧
      statsRoute verify authHeader now tasks = .unauthenticated) ∧
    (∀ tok, bearerToken authHeader = some tok → verify tok = none →
      postTasksRoute verify authHeader r newId now tasks = .forbidden ∧
      getTasksRoute verify authHeader status priority search tasks
        = .forbidden ∧
      putTaskRoute verify authHeader taskId ur now tasks = .forbidden ∧
      deleteTaskRoute verify authHeader taskId tasks = .forbidden ∧
      statsRoute verify authHeader now tasks = .forbidden) ∧
    (∀ tok uid, bearerToken authHeader = some tok → verify tok = some uid →
      postTasksRoute verify authHeader r newId now tasks
        = .ok (createTask uid r newId now tasks) ∧
      getTasksRoute verify authHeader status priority search tasks
        = .ok (listTasks uid status priority search tasks) ∧
      putTaskRoute verify authHeader taskId ur now tasks
        = .ok (updateHandler uid taskId ur now tasks) ∧
      deleteTaskRoute verify authHeader taskId tasks
        = .ok (deleteHandler uid taskId tasks) ∧
      statsRoute verify authHeader now tasks
        = .ok (dashboardStats uid now tasks)) := by
  refine ⟨fun h => ?_, fun tok h hv => ?_, fun tok uid h hv => ?_⟩
  · simp [postTasksRoute, getTasksRoute, putTaskRoute, deleteTaskRoute,
      statsRoute, runProtected, authenticateToken, h]
  · simp [postTasksRoute, getTasksRoute, putTaskRoute, deleteTaskRoute,
      statsRoute, runProtected, authenticateToken, h, hv]
  · simp [postTasksRoute, getTasksRoute, putTaskRoute, deleteTaskRoute,
      statsRoute, runProtected, authenticateToken, h, hv]

/-- Verifier used by concrete witnesses: accepts exactly the token
`tok123`, decoding user 7. -/
def demoVerify : String → Option Nat :=
  fun s => if s = "tok123" then some 7 else none

/-- Witness for C1 at concrete inputs: a missing header yields 401, the
header `Bearer tok123` with the demo verifier reaches the handler as
user 7. -/
theorem gate_protects_routes_witness :
    deleteTaskRoute demoVerify none 1 [] = .unauthenticated ∧
    deleteTaskRoute demoVerify (some "Bearer tok123") 1 []
      = .ok (deleteHandler 7 1 []) := by
  refine ⟨((gate_protects_routes demoVerify none ⟨"t", none, none, none⟩ 1 0
      none none none 1 ⟨none, none, none, none, none⟩ []).1 rfl).2.2.2.1, ?_⟩
  exact ((gate_protects_routes demoVerify (some "Bearer tok123")
      ⟨"t", none, none, none⟩ 1 0 none none none 1
      ⟨none, none, none, none, none⟩ []).2.2 "tok123" 7 (by decide)
      (by decide)).2.2.2.1

/-- C9: the middleware never checks the authorization scheme word — any
header `X token` (for any space-free word `X`, valid token after the first
space) is accepted or rejected purely on the token's validity, while a
header containing no space at all extracts no token and is answered 401. -/
theorem gate_ignores_scheme_word (verify : String → Option Nat) :
    (∀ (x t : List Char) (uid : Nat), ' ' ∉ x → ' ' ∉ t → t ≠ [] →
      verify (String.mk t) = some uid →
      authenticateToken verify (some (String.mk (x ++ ' ' :: t)))
        = .authenticated uid) ∧
    (∀ (x t : List Char), ' ' ∉ x → ' ' ∉ t → t ≠ [] →
      verify (String.mk t) = none →
      authenticateToken verify (some (String.mk (x ++ ' ' :: t)))
        = .forbidden) ∧
    (∀ (h : List Char), ' ' ∉ h →
      authenticateToken verify (some (String.mk h)) = .unauthenticated) := by
  refine ⟨fun x t uid hx ht hne hv => ?_, fun x t hx ht hne hv => ?_,
    fun h hh => ?_⟩
  · simp only [authenticateToken, bearerToken_scheme hx ht hne, hv]
  · simp only [authenticateToken, bearerToken_scheme hx ht hne, hv]
  · simp only [authenticateToken, bearerToken_of_no_space hh]

/-- Witness for C9: the scheme word `Basic` is accepted with a valid token,
and a bare token without any scheme prefix is answered 401. -/
theorem gate_ignores_scheme_word_witness :
    authenticateToken demoVerify
      (some (String.mk ("Basic".toList ++ ' ' :: "tok123".toList)))
      = .authenticated 7 ∧
    authenticateToken demoVerify (some (String.mk "tok123".toList))
      = .unauthenticated := by
  refine ⟨(gate_ignores_scheme_word demoVerify).1 "Basic".toList
      "tok123".toList 7 (by decide) (by decide) (by decide) (by decide), ?_⟩
  exact (gate_ignores_scheme_word demoVerify).2.2 "tok123".toList (by decide)

/-- C2: update and delete match on task id AND owning user id together;
neither ever answers 403, and when the acting principal owns no task with
the given id (in particular when that task belongs to another user) the
answer is 404 and the table is unchanged, so the other user's task
survives. -/
theorem owner_scoped_mutation (uid taskId : Nat) (r : UpdateReq) (now : Int)
    (tasks : List Task) :
    (deleteHandler uid taskId tasks).1 ≠ 403 ∧
    (updateHandler uid taskId r now tasks).1 ≠ 403 ∧
    ((∀ t ∈ tasks, t.task_id = taskId → t.user_id ≠ uid) →
      deleteHandler uid taskId tasks = (404, tasks) ∧
      updateHandler uid taskId r now tasks = (404, none, tasks) ∧
      ∀ t ∈ tasks, t ∈ (deleteHandler uid taskId tasks).2) := by
  have hdel : (deleteHandler uid taskId tasks).1 ≠ 403 := by
    simp only [deleteHandler]
    split <;> simp
  have hupd : (updateHandler uid taskId r now tasks).1 ≠ 403 := by
    simp only [updateHandler]
    split <;> simp
  refine ⟨hdel, hupd, fun h => ?_⟩
  have hmiss : ∀ t ∈ tasks, rowHit uid taskId t = false := by
    intro t ht
    unfold rowHit
    by_cases hid : t.task_id = taskId
    · simp [hid, h t ht hid]
    · simp [hid]
  have hfil : tasks.filter (rowHit uid taskId) = [] :=
    List.filter_eq_nil_iff.mpr fun t ht => by simp [hmiss t ht]
  have hkeep : (tasks.filter fun t => !(rowHit uid taskId t)) = tasks :=
    List.filter_eq_self.mpr fun t ht => by simp [hmiss t ht]
  have hmap :
      (tasks.map fun t =>
        if rowHit uid taskId t then applyUpdate r now t else t) = tasks := by
    refine Eq.trans (List.map_congr_left fun t ht => ?_) (List.map_id tasks)
    simp [hmiss t ht]
  have hdel' : deleteHandler uid taskId tasks = (404, tasks) := by
    unfold deleteHandler
    rw [hfil, hkeep]
    rfl
  refine ⟨hdel', ?_, fun t ht => by rw [hdel']; exact ht⟩
  unfold updateHandler
  rw [hfil, hmap]
  rfl

/-- Sample task rows used by concrete witnesses. -/
def taskA : Task :=
  { task_id := 10, user_id := 1, title := "Write report",
    description := some "Quarterly report", priority := some "High",
    status := "Pending", deadline := some 50, created_at := 0,
    updated_at := 0 }

/-- Witness for C2: user 2 deleting user 1's task 10 gets 404 and the task
survives; the same for an update. -/
theorem owner_scoped_mutation_witness :
    deleteHandler 2 10 [taskA] = (404, [taskA]) ∧
    updateHandler 2 10 ⟨none, none, none, none, none⟩ 9 [taskA]
      = (404, none, [taskA]) := by
  have h := (owner_scoped_mutation 2 10 ⟨none, none, none, none, none⟩ 9
      [taskA]).2.2 (by decide)
  exact ⟨h.1, h.2.1⟩

/-- C4: in the PUT /tasks/:id SET clause, every absent field keeps its
stored value (COALESCE), the last-modified timestamp is always re-stamped
to the statement's current time, and an update with all five fields absent
changes nothing but `updated_at`, which advances whenever the current time
is later than the stored one. -/
theorem coalesce_update (r : UpdateReq) (now : Int) (t : Task) :
    (r.title = none → (applyUpdate r now t).title = t.title) ∧
    (r.description = none →
      (applyUpdate r now t).description = t.description) ∧
    (r.priority = none → (applyUpdate r now t).priority = t.priority) ∧
    (r.status = none → (applyUpdate r now t).status = t.status) ∧
    (r.deadline = none → (applyUpdate r now t).deadline = t.deadline) ∧
    (applyUpdate r now t).updated_at = now ∧
    (r = ⟨none, none, none, none, none⟩ →
      applyUpdate r now t = { t with updated_at := now } ∧
      (t.updated_at < now →
        t.updated_at < (applyUpdate r now t).updated_at)) := by
  refine ⟨fun h => ?_, fun h => ?_, fun h => ?_, fun h => ?_, fun h => ?_,
    rfl, fun h => ?_⟩
  · simp [applyUpdate, h]
  · simp [applyUpdate, h]
  · simp [applyUpdate, h]
  · simp [applyUpdate, h]
  · simp [applyUpdate, h]
  · subst h
    exact ⟨rfl, fun hlt => hlt⟩

/-- Witness for C4: the all-absent update on a concrete task at a later
instant leaves every field unchanged and moves `updated_at` forward. -/
theorem coalesce_update_witness :
    applyUpdate ⟨none, none, none, none, none⟩ 9 taskA
      = { taskA with updated_at := 9 } ∧
    taskA.updated_at < (applyUpdate ⟨none, none, none, none, none⟩ 9
      taskA).updated_at := by
  have h := (coalesce_update ⟨none, none, none, none, none⟩ 9 taskA).2.2.2.2.2.2
    rfl
  exact ⟨h.1, h.2 (by decide)⟩

/-- C8: POST /login answers 400 when no user row has the given email, 401
when the stored hash rejects the password, and 200 with a token whose
payload carries the user id and whose expiry is one hour (3600 seconds)
after issuance when the password matches. -/
theorem login_outcomes (compare : String → String → Bool) (users : List User)
    (email password : String) (now : Int) :
    ((∀ u ∈ users, u.email ≠ email) →
      loginHandler compare users email password now = .userNotFound ∧
      loginStatus (loginHandler compare users email password now) = 400) ∧
    (∀ u rest, users.filter (fun v => v.email == email) = u :: rest →
      (compare password u.password = false →
        loginHandler compare users email password now = .invalidPassword ∧
        loginStatus (loginHandler compare users email password now) = 401) ∧
      (compare password u.password = true →
        loginHandler compare users email password now
          = .ok { user_id := u.user_id, iat := now, exp := now + 3600 } ∧
        loginStatus (loginHandler compare users email password now) = 200)) := by
  constructor
  · intro h
    have hfil : users.filter (fun v => v.email == email) = [] :=
      List.filter_eq_nil_iff.mpr fun u hu => by simp [h u hu]
    simp [loginHandler, loginStatus, hfil]
  · intro u rest hfil
    constructor
    · intro hc
      simp [loginHandler, loginStatus, hfil, hc]
    · intro hc
      simp [loginHandler, loginStatus, hfil, hc]

/-- Sample user row used by concrete witnesses. -/
def userA : User :=
  { user_id := 7, name := "Ada", email := "ada@example.com",
    password := "hash-pw" }

/-- Witness for C8 at concrete inputs: unknown email gives 400, wrong
password 401, matching password a token for user 7 expiring 3600 seconds
after issuance. -/
theorem login_outcomes_witness :
    loginHandler (fun p h => p == h) [userA] "bob@example.com" "x" 100
      = .userNotFound ∧
    loginHandler (fun p h => p == h) [userA] "ada@example.com" "wrong" 100
      = .invalidPassword ∧
    loginHandler (fun p h => p == h) [userA] "ada@example.com" "hash-pw" 100
      = .ok { user_id := 7, iat := 100, exp := 3700 } := by
  refine ⟨((login_outcomes (fun p h => p == h) [userA] "bob@example.com" "x"
      100).1 (by decide)).1, ?_, ?_⟩
  · exact (((login_outcomes (fun p h => p == h) [userA] "ada@example.com"
      "wrong" 100).2 userA [] (by decide)).1 (by decide)).1
  · exact (((login_outcomes (fun p h => p == h) [userA] "ada@example.com"
      "hash-pw" 100).2 userA [] (by decide)).2 (by decide)).1

/-- C5: the query text produced by the GET /tasks builder depends only on
which filters are (truthily) present, never on their contents — every
user-supplied value travels in the positional parameter list, so two
requests with the same filter dimensions yield the identical query text. -/
theorem query_text_depends_only_on_presence (uidOne uidTwo : Nat)
    (sOne pOne qOne sTwo pTwo qTwo : Option String)
    (hs : truthy sOne = truthy sTwo) (hp : truthy pOne = truthy pTwo)
    (hq : truthy qOne = truthy qTwo) :
    (buildTasksQuery uidOne sOne pOne qOne).1
      = (buildTasksQuery uidTwo sTwo pTwo qTwo).1 := by
  simp only [buildTasksQuery]
  rw [← hs, ← hp, ← hq]
  cases truthy sOne <;> cases truthy pOne <;> cases truthy qOne <;> simp

/-- Witness for C5: two requests with different principals and different
filter values but the same present dimensions produce the same text. -/
theorem query_text_depends_only_on_presence_witness :
    (buildTasksQuery 1 (some "Pending") none (some "report")).1
      = (buildTasksQuery 2 (some "Completed") none (some "x")).1 :=
  query_text_depends_only_on_presence 1 2 (some "Pending") none
    (some "report") (some "Completed") none (some "x") (by decide) (by decide)
    (by decide)

/-- C10: a filter supplied as the empty string is treated exactly like an
absent filter, both by the executed query and by the built query text and
parameters (the empty string is falsy in JS, so no predicate is appended). -/
theorem empty_filter_treated_as_absent (uid : Nat)
    (status priority search : Option String) (tasks : List Task) :
    listTasks uid (some "") priority search tasks
      = listTasks uid none priority search tasks ∧
    listTasks uid status (some "") search tasks
      = listTasks uid status none search tasks ∧
    listTasks uid status priority (some "") tasks
      = listTasks uid status priority none tasks ∧
    buildTasksQuery uid (some "") priority search
      = buildTasksQuery uid none priority search ∧
    buildTasksQuery uid status (some "") search
      = buildTasksQuery uid status none search ∧
    buildTasksQuery uid status priority (some "")
      = buildTasksQuery uid status priority none := by
  refine ⟨rfl, rfl, rfl, rfl, rfl, rfl⟩

/-- Deciding whether an optional value exists and satisfies a decidable
predicate (used to state the overdue count propositionally). -/
instance {o : Option Int} {p : Int → Prop} [DecidablePred p] :
    Decidable (∃ d, o = some d ∧ p d) :=
  match o with
  | none => isFalse (by simp)
  | some v => decidable_of_iff (p v) (by simp)

/-- Bridge from a `countP` by the handler's boolean row predicate to the
length of a filter by a pointwise-equal predicate. -/
theorem countP_eq_filterLength {l : List Task} {p pb : Task → Bool}
    (h : ∀ t, p t = pb t) : l.countP p = (l.filter pb).length := by
  rw [List.countP_eq_length_filter]
  exact congrArg List.length (List.filter_congr fun t _ => h t)

/-- C6: GET /dashboard/stats returns five counts scoped to the principal:
all owned tasks, those with status exactly `Completed`, those with status
exactly `Pending`, those with priority exactly `High`, and the overdue ones
— owned tasks whose status is not `Completed` and whose deadline exists and
is strictly earlier than the current time. -/
theorem dashboard_stats_counts (uid : Nat) (now : Int) (tasks : List Task) :
    (dashboardStats uid now tasks).totalTasks
      = (tasks.filter fun t => decide (t.user_id = uid)).length ∧
    (dashboardStats uid now tasks).completedTasks
      = (tasks.filter fun t =>
          decide (t.user_id = uid ∧ t.status = "Completed")).length ∧
    (dashboardStats uid now tasks).pendingTasks
      = (tasks.filter fun t =>
          decide (t.user_id = uid ∧ t.status = "Pending")).length ∧
    (dashboardStats uid now tasks).highPriorityTasks
      = (tasks.filter fun t =>
          decide (t.user_id = uid ∧ t.priority = some "High")).length ∧
    (dashboardStats uid now tasks).overdueTasks
      = (tasks.filter fun t : Task =>
          decide (t.user_id = uid ∧ t.status ≠ "Completed" ∧
            ∃ d, t.deadline = some d ∧ d < now)).length := by
  refine ⟨countP_eq_filterLength fun t => ?_,
    countP_eq_filterLength fun t => ?_, countP_eq_filterLength fun t => ?_,
    countP_eq_filterLength fun t => ?_, countP_eq_filterLength fun t => ?_⟩
  · rw [Bool.eq_iff_iff]
    simp
  · rw [Bool.eq_iff_iff]
    simp
  · rw [Bool.eq_iff_iff]
    simp
  · rw [Bool.eq_iff_iff]
    cases t.priority <;> simp
  · rw [Bool.eq_iff_iff]
    cases t.deadline <;> simp [and_assoc]

/-- Counting two disjoint boolean predicates, each implying a third, never
exceeds the count of the third. -/
theorem countP_disjoint_add_le {α : Type} (p q r : α → Bool) (l : List α)
    (hp : ∀ a, p a = true → r a = true) (hq : ∀ a, q a = true → r a = true)
    (hpq : ∀ a, ¬(p a = true ∧ q a = true)) :
    l.countP p + l.countP q ≤ l.countP r := by
  induction l with
  | nil => simp
  | cons x xs ih =>
    simp only [List.countP_cons]
    by_cases hx : p x = true
    · have hr := hp x hx
      have hy : q x = false := by
        simpa using fun hy => hpq x ⟨hx, hy⟩
      simp [hx, hr, hy]
      omega
    · have hx' : p x = false := by simpa using hx
      by_cases hy : q x = true
      · have hr := hq x hy
        simp [hx', hy, hr]
        omega
      · have hy' : q x = false := by simpa using hy
        by_cases hr : r x = true <;> simp [hx', hy', hr] <;> omega

/-- C7: for every table state and principal,
`completedTasks + pendingTasks ≤ totalTasks` — the two status counts are
disjoint sub-counts of the principal's tasks. -/
theorem stats_sum_le (uid : Nat) (now : Int) (tasks : List Task) :
    (dashboardStats uid now tasks).completedTasks
      + (dashboardStats uid now tasks).pendingTasks
      ≤ (dashboardStats uid now tasks).totalTasks := by
  refine countP_disjoint_add_le _ _ _ tasks (fun a ha => ?_) (fun a ha => ?_)
    (fun a ⟨h1, h2⟩ => ?_)
  · exact (Bool.and_eq_true .. ▸ ha).1
  · exact (Bool.and_eq_true .. ▸ ha).1
  · simp only [Bool.and_eq_true, beq_iff_eq] at h1 h2
    exact absurd (h1.2.symm.trans h2.2) (by decide)

/-! ### LIKE patterns of the shape `%text%` mean case-insensitive substring -/

theorem anySuffix_eq_true_iff (f : List Char → Bool) (t : List Char) :
    anySuffix f t = true ↔ ∃ u, u <:+ t ∧ f u = true := by
  induction t with
  | nil =>
    simp only [anySuffix, List.suffix_nil]
    constructor
    · exact fun h => ⟨[], rfl, h⟩
    · rintro ⟨u, hu, hf⟩
      subst hu
      exact hf
  | cons c cs ih =>
    simp only [anySuffix, Bool.or_eq_true, ih]
    constructor
    · rintro (h | ⟨u, hu, hf⟩)
      · exact ⟨c :: cs, List.suffix_rfl, h⟩
      · exact ⟨u, List.suffix_cons_iff.mpr (Or.inr hu), hf⟩
    · rintro ⟨u, hu, hf⟩
      rcases List.suffix_cons_iff.mp hu with h | h
      · subst h
        exact Or.inl hf
      · exact Or.inr ⟨u, h, hf⟩

theorem likeMatch_lit_pct {s : List Char} (hs1 : '%' ∉ s) (hs2 : '_' ∉ s)
    (t : List Char) : likeMatch (s ++ ['%']) t = s.isPrefixOf t := by
  induction s generalizing t with
  | nil =>
    simp only [List.nil_append, List.isPrefixOf_nil_left]
    show anySuffix (likeMatch []) t = true
    exact (anySuffix_eq_true_iff (likeMatch []) t).mpr ⟨[], List.nil_suffix, rfl⟩
  | cons a s' ih =>
    simp only [List.mem_cons, not_or] at hs1 hs2
    have ha1 : ¬a = '%' := fun e => hs1.1 e.symm
    have ha2 : ¬a = '_' := fun e => hs2.1 e.symm
    cases t with
    | nil => simp [likeMatch, ha1]
    | cons c cs =>
      simp only [List.cons_append, likeMatch, if_neg ha1,
        List.isPrefixOf_cons₂]
      rw [Bool.eq_iff_iff]
      simp [ha2, ih hs1.2 hs2.2, List.isPrefixOf_iff_prefix]

theorem likeMatch_pct_iff {s : List Char} (hs1 : '%' ∉ s) (hs2 : '_' ∉ s)
    (t : List Char) :
    likeMatch ('%' :: (s ++ ['%'])) t = true ↔ s <:+: t := by
  have hshape : likeMatch ('%' :: (s ++ ['%'])) t =
      anySuffix (likeMatch (s ++ ['%'])) t := by
    simp [likeMatch]
  rw [hshape, anySuffix_eq_true_iff]
  constructor
  · rintro ⟨u, hu, hm⟩
    rw [likeMatch_lit_pct hs1 hs2 u] at hm
    exact List.infix_iff_prefix_suffix.mpr
      ⟨u, List.isPrefixOf_iff_prefix.mp hm, hu⟩
  · intro hinf
    obtain ⟨u, hpu, hsu⟩ := List.infix_iff_prefix_suffix.mp hinf
    refine ⟨u, hsu, ?_⟩
    rw [likeMatch_lit_pct hs1 hs2 u]
    exact List.isPrefixOf_iff_prefix.mpr hpu

theorem plainText_no_wildcards {q : String} (h : plainText q = true) :
    '%' ∉ lowerList q ∧ '_' ∉ lowerList q := by
  simp only [plainText, List.all_eq_true] at h
  constructor <;> intro hm <;>
  · obtain ⟨c, hc, he⟩ := List.mem_map.mp hm
    have hcq := h c hc
    simp [he] at hcq

theorem lowerList_searchPat (q : String) :
    lowerList (searchPat q) = '%' :: (lowerList q ++ ['%']) := by
  have hdata : (searchPat q).toList = '%' :: (q.toList ++ ['%']) := by
    show (("%" ++ q ++ "%") : String).data = '%' :: (q.data ++ ['%'])
    rw [String.data_append, String.data_append]
    rfl
  unfold lowerList
  rw [hdata, List.map_cons, List.map_append]
  rfl

/-- A `%text%` ILIKE test with a plain-text needle is exactly
case-insensitive substring containment. -/
theorem sqlILike_pct_iff {q : String} (x : String) (hq : plainText q = true) :
    sqlILike x (searchPat q) = true ↔ lowerList q <:+: lowerList x := by
  obtain ⟨h1, h2⟩ := plainText_no_wildcards hq
  rw [sqlILike, lowerList_searchPat]
  exact likeMatch_pct_iff h1 h2 (lowerList x)

/-! ### The assembled GET /tasks predicate, propositionally -/

theorem matchesFilters_iff (uid : Nat) (status priority search : Option String)
    (t : Task) (hst : status ≠ some "") (hpr : priority ≠ some "")
    (hse : ∀ q, search = some q → q ≠ "" ∧ plainText q = true) :
    matchesFilters uid status priority search t = true ↔
      (t.user_id = uid ∧
       (∀ s, status = some s → t.status = s) ∧
       (∀ p, priority = some p → t.priority = some p) ∧
       (∀ q, search = some q →
         lowerList q <:+: lowerList t.title ∨
         ∃ d, t.description = some d ∧ lowerList q <:+: lowerList d)) := by
  unfold matchesFilters
  simp only [Bool.and_eq_true, beq_iff_eq, and_assoc]
  refine and_congr_right fun _ => ?_
  refine and_congr ?_ (and_congr ?_ ?_)
  · cases status with
    | none => simp [truthy]
    | some s =>
      have hs : s ≠ "" := fun e => hst (by rw [e])
      simp [truthy, hs]
  · cases priority with
    | none => simp [truthy]
    | some s =>
      have hs : s ≠ "" := fun e => hpr (by rw [e])
      cases t.priority <;> simp [truthy, hs]
  · cases search with
    | none => simp [truthy]
    | some q =>
      obtain ⟨hne, hpl⟩ := hse q rfl
      have htr : truthy (some q) = true := by simp [truthy, hne]
      rw [htr]
      simp only [if_true, Option.getD_some, Bool.or_eq_true,
        sqlILike_pct_iff _ hpl]
      cases t.description with
      | none => simp
      | some d => simp [sqlILike_pct_iff _ hpl]

theorem matchesFilters_drop_status {uid : Nat}
    {status priority search : Option String} {t : Task}
    (h : matchesFilters uid status priority search t = true) :
    matchesFilters uid none priority search t = true := by
  simp only [matchesFilters, Bool.and_eq_true] at h ⊢
  exact ⟨⟨⟨h.1.1.1, by simp [truthy]⟩, h.1.2⟩, h.2⟩

theorem matchesFilters_drop_priority {uid : Nat}
    {status priority search : Option String} {t : Task}
    (h : matchesFilters uid status priority search t = true) :
    matchesFilters uid status none search t = true := by
  simp only [matchesFilters, Bool.and_eq_true] at h ⊢
  exact ⟨⟨⟨h.1.1.1, h.1.1.2⟩, by simp [truthy]⟩, h.2⟩

theorem matchesFilters_drop_search {uid : Nat}
    {status priority search : Option String} {t : Task}
    (h : matchesFilters uid status priority search t = true) :
    matchesFilters uid status priority none t = true := by
  simp only [matchesFilters, Bool.and_eq_true] at h ⊢
  exact ⟨h.1, by simp [truthy]⟩

/-- C3: for every principal and every combination of (truthy) filters, GET
/tasks returns exactly the principal's tasks satisfying all supplied
predicates conjunctively — exact match on status and priority,
case-insensitive substring over title OR description for a plain-text
search — and dropping any one filter yields a superset across that
dimension.  (Searches containing the SQL wildcard characters are governed
by LIKE semantics rather than plain substring, hence the plain-text
hypothesis; an empty-string filter is the absent filter, see the
empty-string claim.) -/
theorem get_tasks_filter_semantics (uid : Nat)
    (status priority search : Option String) (tasks : List Task)
    (hst : status ≠ some "") (hpr : priority ≠ some "")
    (hse : ∀ q, search = some q → q ≠ "" ∧ plainText q = true) :
    (∀ t, t ∈ listTasks uid status priority search tasks ↔
      (t ∈ tasks ∧ t.user_id = uid ∧
       (∀ s, status = some s → t.status = s) ∧
       (∀ p, priority = some p → t.priority = some p) ∧
       (∀ q, search = some q →
         lowerList q <:+: lowerList t.title ∨
         ∃ d, t.description = some d ∧ lowerList q <:+: lowerList d))) ∧
    (∀ t, t ∈ listTasks uid status priority search tasks →
      t ∈ listTasks uid none priority search tasks ∧
      t ∈ listTasks uid status none search tasks ∧
      t ∈ listTasks uid status priority none tasks) := by
  constructor
  · intro t
    rw [listTasks, List.mem_filter, and_congr_right_iff]
    intro _
    exact matchesFilters_iff uid status priority search t hst hpr hse
  · intro t ht
    rw [listTasks, List.mem_filter] at ht
    refine ⟨?_, ?_, ?_⟩ <;> rw [listTasks, List.mem_filter]
    · exact ⟨ht.1, matchesFilters_drop_status ht.2⟩
    · exact ⟨ht.1, matchesFilters_drop_priority ht.2⟩
    · exact ⟨ht.1, matchesFilters_drop_search ht.2⟩

/-- Witness for C3 at concrete inputs: with filters
status `Pending`, search `report`, the stored sample task is returned, and
dropping the status filter still returns it. -/
theorem get_tasks_filter_semantics_witness :
    taskA ∈ listTasks 1 (some "Pending") none (some "report") [taskA] ∧
    taskA ∈ listTasks 1 none none (some "report") [taskA] := by
  have h := get_tasks_filter_semantics 1 (some "Pending") none
    (some "report") [taskA] (by decide) (by decide)
    (by
      intro q hq
      injection hq with he
      subst he
      exact ⟨by decide, by decide⟩)
  have hmem : taskA ∈ listTasks 1 (some "Pending") none (some "report")
      [taskA] := by decide
  exact ⟨hmem, (h.2 taskA hmem).1⟩

end ProductivityApi
